import Mathlib

/-!
Shallow embedding of the screen-monitoring assistant: the credential
rotator, the data-URL frame codec and the detection client of
`services/geminiService.ts`, and the monitoring-loop state machine of
`App.tsx`, together with theorems settling the frozen claims about them.

Conventions of the embedding:
* the remote vision service, the browser runtime and the DOM are the
  environment; their behaviour enters as explicit parameters
  (`RemoteOutcome`, events of the monitor machine);
* JavaScript exceptions are represented by explicit failure values, so a
  function that "never throws" in the source is a total Lean function
  mapping every failure of a sub-step to the value the `catch` produces;
* machine floats are modelled as rationals (no NaN value exists in `ℚ`;
  the places where JS can produce NaN are modelled with `Option ℚ`,
  `none` standing for NaN).
-/

/-- Rotator state: the module-level mutable variables `currentKeyIndex`,
`lastApiKeyString` and `parsedKeys` of the service module. -/
structure RotState where
  currentKeyIndex : Nat
  lastApiKeyString : String
  parsedKeys : List String
deriving DecidableEq, Repr

/-- JS `String.prototype.split` with a one-character separator, on the
character list of the string. -/
def splitOn (sep : Char) : List Char → List (List Char)
  | [] => [[]]
  | c :: rest =>
    if c = sep then [] :: splitOn sep rest
    else
      match splitOn sep rest with
      | [] => [[c]]
      | h :: t => (c :: h) :: t

/-- JS `String.prototype.trim`: strip whitespace from both ends (the
exotic Unicode space classes JS also strips are not distinguished by any
claim's inputs). -/
def trimChars (l : List Char) : List Char :=
  ((l.dropWhile Char.isWhitespace).reverse.dropWhile Char.isWhitespace).reverse

/-- `apiKeyString.split(',').map(k => k.trim()).filter(k => k.length > 0)`. -/
def parseKeys (s : String) : List String :=
  ((splitOn ',' s.data).map (fun k => (⟨trimChars k⟩ : String))).filter
    (fun k => decide (0 < k.data.length))

/-- The re-parse step at the top of `getNextClient`: if the key string
changed, re-split it and reset the rotation index to 0. -/
def reparse (st : RotState) (apiKeyString : String) : RotState :=
  if apiKeyString ≠ st.lastApiKeyString then
    { currentKeyIndex := 0
      lastApiKeyString := apiKeyString
      parsedKeys := parseKeys apiKeyString }
  else st

/-- `getNextClient` (service lines 9–26).  The returned `Option String` is
the API key handed to the constructed client (`none` = the function
returned `null`).  JS `!apiKeyString` on a string is true exactly for
`""`.  `parsedKeys[currentKeyIndex]` is modelled with `getD` (for every
state the program reaches the index is in bounds). -/
def getNextClient (st : RotState) (apiKeyString : String) :
    RotState × Option String :=
  if apiKeyString = "" then (st, none)
  else
    let st1 := reparse st apiKeyString
    if st1.parsedKeys = [] then (st1, none)
    else
      let key := st1.parsedKeys.getD st1.currentKeyIndex ""
      ({ st1 with
          currentKeyIndex := (st1.currentKeyIndex + 1) % st1.parsedKeys.length },
        some key)

/-- Iterated calls of the rotator with a fixed key string: the state after
`n` calls. -/
def rotIter (st : RotState) (s : String) : Nat → RotState
  | 0 => st
  | n + 1 => (getNextClient (rotIter st s n) s).1

/-- The key returned by the `(n+1)`-th consecutive call of the rotator
(so `nthKey st s 0` is the first call's result). -/
def nthKey (st : RotState) (s : String) (n : Nat) : Option String :=
  (getNextClient (rotIter st s n) s).2

/-- `data.replace(/[\s\r\n]+/g, '')`: drop every whitespace character. -/
def stripWs (s : String) : String :=
  ⟨s.data.filter (fun c => !c.isWhitespace)⟩

/-- The mime-type extraction `metadata.match(/^data:([^;]+)/)`: a match
requires the literal prefix `data:` followed by at least one non-`;`
character; the capture is the maximal such run; on no match the code
falls back to `image/jpeg`. -/
def extractMime (metadata : String) : String :=
  match metadata.data with
  | 'd' :: 'a' :: 't' :: 'a' :: ':' :: rest =>
    let m := rest.takeWhile (fun c => c != ';')
    if m = [] then "image/jpeg" else ⟨m⟩
  | _ => "image/jpeg"

/-- `parseDataUrl` (service lines 41–65): split at the first comma,
extract the mime type from the metadata, strip all whitespace from the
payload; `none` for no comma or an empty stripped payload.  (The
`try/catch` inside is dead: none of the string operations throws.) -/
def parseDataUrl (url : String) : Option (String × String) :=
  match url.data.findIdx? (fun c => c == ',') with
  | none => none
  | some i =>
    let metadata : String := ⟨url.data.take i⟩
    let data : String := ⟨url.data.drop (i + 1)⟩
    let cleanData := stripWs data
    if cleanData = "" then none
    else some (extractMime metadata, cleanData)

/-- JSON values as produced by `JSON.parse` (JS `undefined` is not a JSON
value; absent object fields are modelled with `Option` at use sites). -/
inductive JValue where
  | jnull
  | jbool (b : Bool)
  | jnum (q : ℚ)
  | jstr (s : String)
  | jarr (elems : List JValue)
  | jobj (fields : List (String × JValue))

/-- Digit run to a natural number. -/
def digitsToNat (l : List Char) : Nat :=
  l.foldl (fun a c => a * 10 + (c.toNat - 48)) 0

/-- JS `Number()` on a string, for the plain decimal forms: optional
sign, digits, optional fraction; the whitespace-only string is 0.
Exponent, hex and `Infinity` forms are not produced by any claim's input
and map to `none` (= NaN). -/
def parseJsNumber (s : String) : Option ℚ :=
  match trimChars s.data with
  | [] => some 0
  | t =>
    let sgn : Int := match t with | '-' :: _ => -1 | _ => 1
    let body : List Char :=
      match t with
      | '-' :: rest => rest
      | '+' :: rest => rest
      | _ => t
    match splitOn '.' body with
    | [ip] =>
      if ip ≠ [] ∧ ip.all Char.isDigit then
        some (mkRat (sgn * (digitsToNat ip : Int)) 1)
      else none
    | [ip, fp] =>
      if (ip ≠ [] ∨ fp ≠ []) ∧ ip.all Char.isDigit ∧ fp.all Char.isDigit then
        some (mkRat
          (sgn * ((digitsToNat ip : Int) * ((10 : Int) ^ fp.length) + (digitsToNat fp : Int)))
          (10 ^ fp.length))
      else none
    | _ => none

/-- JS `ToNumber` on a parsed JSON value; `none` stands for NaN.
`null → 0`, booleans → 0/1, arrays go through `ToPrimitive`
(`[] → 0`, a one-element array coerces like its element — modulo the
string round-trip, which agrees on the null/number/string/array/object
elements —, longer arrays and objects → NaN). -/
def toNumber : JValue → Option ℚ
  | .jnull => some 0
  | .jbool b => some (if b then 1 else 0)
  | .jnum q => some q
  | .jstr s => parseJsNumber s
  | .jarr [] => some 0
  | .jarr [x] =>
    match x with
    | .jbool _ => none
    | y => toNumber y
  | .jarr _ => none
  | .jobj _ => none

/-- JS truthiness of a parsed JSON value. -/
def truthy : JValue → Bool
  | .jnull => false
  | .jbool b => b
  | .jnum q => decide (q ≠ 0)
  | .jstr s => decide (s ≠ "")
  | .jarr _ => true
  | .jobj _ => true

/-- Property read on a parsed JSON object; `none` = `undefined`
(absent field, or a read on a non-object primitive/array).  A read on
`null` throws in JS; that case is handled separately at the use site.
`JSON.parse` keeps the last of duplicate keys. -/
def getField : JValue → String → Option JValue
  | .jobj fields, k => ((fields.reverse).find? (fun p => p.1 == k)).map (fun p => p.2)
  | _, _ => none

/-- JS `v >= q` for a parsed JSON value `v` and number `q`:
coerce `v` with `ToNumber`; a NaN comparison is false. -/
def jsGE (v : JValue) (q : ℚ) : Bool :=
  match toNumber v with
  | none => false
  | some n => decide (q ≤ n)

/-- JS `v <= q`: coerce and compare, NaN → false. -/
def jsLE (v : JValue) (q : ℚ) : Bool :=
  match toNumber v with
  | none => false
  | some n => decide (n ≤ q)

/-- The bounding box the client builds from `box_2d`.  The fields are
kept as JSON values because the code copies the array entries unchecked
(they need not be numbers). -/
structure BoundingBox where
  ymin : JValue
  xmin : JValue
  ymax : JValue
  xmax : JValue

/-- `DetectionResult` of `types.ts`: `detected` is produced by `!!`, so a
boolean; `confidence` by `Number(..) || 0`, so a (non-NaN) number. -/
structure DetectionResult where
  detected : Bool
  confidence : ℚ
  boundingBox : Option BoundingBox

/-- The safe default `{ detected: false, confidence: 0 }`. -/
def zeroResult : DetectionResult :=
  { detected := false, confidence := 0, boundingBox := none }

/-- `Number(json.confidence) || 0`: `undefined`/NaN and 0 give 0,
any other number passes through. -/
def confVal (v : Option JValue) : ℚ :=
  match v with
  | none => 0
  | some x =>
    match toNumber x with
    | none => 0
    | some q => q

/-- `!!json.detected`. -/
def detVal (v : Option JValue) : Bool :=
  match v with
  | none => false
  | some x => truthy x

/-- The `box_2d` validation (service lines 154–166):
`json.box_2d && Array.isArray(json.box_2d) && json.box_2d.length === 4`
(an array is always truthy, so the guard is exactly "a 4-element
array"), then the range checks `ymin >= 0 && ymin <= 1 && xmin >= 0 &&
xmin <= 1` under JS coercion; `ymax`/`xmax` are not checked. -/
def extractBox : Option JValue → Option BoundingBox
  | some (JValue.jarr [a, b, c, d]) =>
    if jsGE a 0 && jsLE a 1 && jsGE b 0 && jsLE b 1 then
      some { ymin := a, xmin := b, ymax := c, xmax := d }
    else none
  | _ => none

/-- Interpretation of the parsed response body (service lines 152–172).
A property read on `null` throws a `TypeError`, which the surrounding
`try/catch` converts to the zero result. -/
def interpretResponse (json : JValue) : DetectionResult :=
  match json with
  | .jnull => zeroResult
  | j =>
    { detected := detVal (getField j "detected")
      confidence := confVal (getField j "confidence")
      boundingBox := extractBox (getField j "box_2d") }

/-- Behaviour of the remote call boundary for one invocation:
the call rejects (network/API error), resolves with a falsy
`response.text`, or resolves with a non-empty body whose `JSON.parse`
either throws (`body none`) or yields a JSON value. -/
inductive RemoteOutcome where
  | fail
  | emptyBody
  | body (parsed : Option JValue)

/-- The body of `checkFrameForTarget` after the rotator call (service
lines 35–178): `clientOk` says whether `getNextClient` returned a
client; then target/screen decoding and the guarded remote call.  The
second component records whether the remote service was invoked.
(The key inside the client does not influence the modelled behaviour;
the remote call's outcome is the `remote` parameter.) -/
def detectOutcome (clientOk : Bool) (targetImagesBase64 : List String)
    (screenFrameBase64 : String) (remote : RemoteOutcome) :
    DetectionResult × Bool :=
  if clientOk = false then (zeroResult, false)
  else
    let targets := targetImagesBase64.filterMap parseDataUrl
    let screen := parseDataUrl screenFrameBase64
    if targets = [] ∨ screen = none then (zeroResult, false)
    else
      match remote with
      | .fail => (zeroResult, true)
      | .emptyBody => (zeroResult, true)
      | .body none => (zeroResult, true)
      | .body (some j) => (interpretResponse j, true)

/-- `checkFrameForTarget` (service lines 28–179).  State-passing form of
the rotator side effect; the final `Bool` records whether the remote
service was invoked.  Every throwing path of the source is caught there
and mapped to `zeroResult`, so the embedding is a total function. -/
def checkFrameForTarget (st : RotState) (apiKeyString : String)
    (targetImagesBase64 : List String) (screenFrameBase64 : String)
    (remote : RemoteOutcome) : RotState × DetectionResult × Bool :=
  let g := getNextClient st apiKeyString
  (g.1, detectOutcome g.2.isSome targetImagesBase64 screenFrameBase64 remote)

/-- `AppStatus` of `types.ts`. -/
inductive AppStatus where
  | IDLE
  | MONITORING
  | PAUSED
deriving DecidableEq, Repr

/-- Log entry severities of `types.ts`. -/
inductive LogType where
  | info
  | success
  | error
  | warning
deriving DecidableEq, Repr

/-- A log entry as `addLog` creates it (the generated id and timestamp
carry no information the claims mention). -/
structure LogRec where
  message : String
  type : LogType
  conf : Option ℚ
deriving DecidableEq, Repr

/-- `setLogs(prev => [...prev.slice(-99), entry])`: keep the last 99
entries and append. -/
def pushLog (logs : List LogRec) (e : LogRec) : List LogRec :=
  logs.drop (logs.length - 99) ++ [e]

/-- The monitor state of the `App` component.
`videoReady` models `videoWidth > 0 ∧ videoHeight > 0 ∧ ¬paused ∧
¬ended` of the `<video>` element; `stream` doubles as "the video element
is mounted" (the JSX renders it exactly when a stream exists);
`busy` is `isProcessingRef`; `inFlight` counts outstanding
`checkFrameForTarget` promises (for the mutual-exclusion claim);
`overlay` is the box currently drawn on the overlay canvas. -/
structure MState where
  status : AppStatus
  apiKey : String
  confidenceThreshold : ℚ
  soundEnabled : Bool
  stream : Bool
  targets : Nat
  videoReady : Bool
  busy : Bool
  inFlight : Nat
  overlay : Option BoundingBox
  logs : List LogRec

/-- `addLog` applied to the monitor state. -/
def mAddLog (s : MState) (msg : String) (t : LogType) (c : Option ℚ) : MState :=
  { s with logs := pushLog s.logs { message := msg, type := t, conf := c } }

/-- `stopMonitoring` (App lines 221–233): cancel the timer, stop the
stream's tracks, go to `IDLE`, clear the overlay, log. -/
def stopMonitoringFn (s : MState) : MState :=
  let s1 := if s.stream then { s with stream := false } else s
  mAddLog { s1 with status := AppStatus.IDLE, overlay := none }
    "Monitoring stopped" LogType.info none

/-- `toggleMonitoring` (App lines 286–308). -/
def toggleMonitoringFn (s : MState) : MState :=
  if s.status = AppStatus.IDLE ∨ s.status = AppStatus.PAUSED then
    if s.apiKey = "" then
      mAddLog s "Gemini API Key is required" LogType.error none
    else if s.stream = false then
      mAddLog s "Start screen capture first" LogType.warning none
    else if s.targets = 0 then
      mAddLog s "Upload a target image first" LogType.warning none
    else
      mAddLog { s with status := AppStatus.MONITORING }
        "Monitoring active" LogType.success none
  else
    mAddLog { s with status := AppStatus.PAUSED }
      "Monitoring paused" LogType.info none

/-- The synchronous prefix of a `checkFrame` tick (App lines 235–257),
up to and including the issuing of the `checkFrameForTarget` call.  The
returned `Bool` is true when a detection call was issued (the tick then
suspends at the `await`; its continuation is `tickEndFn`).  The guards,
in source order: missing video/canvas element, no targets, busy; the
empty API key (which logs and stops monitoring); undecoded or
paused/ended video.  On proceed: set `busy`, draw/encode the frame, log
"Analyzing frame...", call the service.  (`canvas.getContext('2d')`
returning `null` — in which case the tick does nothing and clears
`busy` — does not occur on a fresh hidden canvas and is not modelled.) -/
def tickStartFn (s : MState) : MState × Bool :=
  if s.stream = false ∨ s.targets = 0 ∨ s.busy = true then (s, false)
  else if s.apiKey = "" then
    (stopMonitoringFn (mAddLog s "API Key missing. Check settings." LogType.error none),
      false)
  else if s.videoReady = false then (s, false)
  else
    ({ mAddLog s "Analyzing frame..." LogType.info none with
        busy := true, inFlight := s.inFlight + 1 }, true)

/-- The continuation of a tick after the awaited detection call settles
(App lines 258–273): on a result, alert/log/draw per the threshold test;
on a caught error, log it; in all cases clear `busy`.  The returned
`Bool` is true when the audible alert was played. -/
def tickEndFn (s : MState) (outcome : Except Unit DetectionResult) :
    MState × Bool :=
  match outcome with
  | Except.ok r =>
    if r.detected = true ∧ s.confidenceThreshold ≤ r.confidence then
      ({ mAddLog { s with overlay := r.boundingBox }
            "Target Detected!" LogType.success (some r.confidence) with
          busy := false, inFlight := s.inFlight - 1 }, s.soundEnabled)
    else
      ({ s with overlay := none, busy := false, inFlight := s.inFlight - 1 },
        false)
  | Except.error _ =>
    ({ mAddLog s "Frame check failed" LogType.error none with
        busy := false, inFlight := s.inFlight - 1 }, false)

/-- One whole `checkFrame` invocation: the synchronous prefix and, when
a detection call was issued, its continuation with the given outcome. -/
def completeTick (s : MState) (outcome : Except Unit DetectionResult) : MState :=
  let p := tickStartFn s
  if p.2 then (tickEndFn p.1 outcome).1 else p.1

/-- The externally triggered transitions of the monitor: user
configuration edits, capture start, target list changes, the toggle and
stop buttons, the browser's share-ended signal, video readiness changes,
and the two halves of a tick. -/
inductive Ev where
  | setApiKey (k : String)
  | setThreshold (q : ℚ)
  | toggleSound
  | captureOk
  | addTarget
  | removeTarget
  | toggle
  | stopBtn
  | streamEnded
  | setVideoReady (b : Bool)
  | tickBegin
  | tickFinish (o : Except Unit DetectionResult)

/-- The step function of the monitor machine (each event's effect is the
corresponding handler in `App.tsx`).  `tickFinish` with nothing in
flight has no pending continuation and is a no-op. -/
def stepEv (s : MState) (e : Ev) : MState :=
  match e with
  | .setApiKey k => { s with apiKey := k }
  | .setThreshold q => { s with confidenceThreshold := q }
  | .toggleSound => { s with soundEnabled := !s.soundEnabled }
  | .captureOk =>
    if s.stream then s
    else mAddLog { s with stream := true } "Screen monitoring started" LogType.info none
  | .addTarget =>
    mAddLog { s with targets := s.targets + 1 }
      "Target image added successfully" LogType.info none
  | .removeTarget =>
    if s.targets = 0 then s
    else mAddLog { s with targets := s.targets - 1 }
      "Target image removed" LogType.info none
  | .toggle => toggleMonitoringFn s
  | .stopBtn => stopMonitoringFn s
  | .streamEnded =>
    if s.stream then
      mAddLog (stopMonitoringFn s) "Screen sharing ended by user" LogType.warning none
    else s
  | .setVideoReady b => { s with videoReady := b }
  | .tickBegin => (tickStartFn s).1
  | .tickFinish o => if s.inFlight = 0 then s else (tickEndFn s o).1

/-- Run a list of events from a state. -/
def runEvents (s : MState) : List Ev → MState
  | [] => s
  | e :: es => runEvents (stepEv s e) es

/-- The initial component state (defaults of App lines 29–63 with no
persisted configuration). -/
def initState : MState :=
  { status := AppStatus.IDLE
    apiKey := ""
    confidenceThreshold := mkRat 85 100
    soundEnabled := true
    stream := false
    targets := 0
    videoReady := false
    busy := false
    inFlight := 0
    overlay := none
    logs := [] }

/-- States the monitor can reach from startup. -/
inductive Reachable : MState → Prop where
  | init : Reachable initState
  | step : ∀ {s : MState} (e : Ev), Reachable s → Reachable (stepEv s e)

/-- The fresh rotator state at module load. -/
def initRot : RotState :=
  { currentKeyIndex := 0, lastApiKeyString := "", parsedKeys := [] }

/-! ### Helper lemmas -/

lemma findIdx_append_comma : ∀ (pre post : List Char), ',' ∉ pre →
    ∀ i, List.findIdx? (fun c => c == ',') (pre ++ ',' :: post) i = some (i + pre.length)
  | [], post, _, i => by simp [List.findIdx?_cons]
  | c :: rest, post, hp, i => by
    simp only [List.mem_cons, not_or] at hp
    have hc : (c == ',') = false := by
      simp [Ne.symm hp.1]
    simp only [List.cons_append, List.findIdx?_cons, hc, if_false]
    rw [findIdx_append_comma rest post hp.2 (i + 1)]
    simp only [List.length_cons]
    exact congrArg some (by omega)

lemma string_mk_data (l : List Char) : (⟨l⟩ : String).data = l := rfl

lemma parseDataUrl_eq (pre post : List Char) (hp : ',' ∉ pre) :
    parseDataUrl ⟨pre ++ ',' :: post⟩ =
      (if stripWs ⟨post⟩ = "" then none
        else some (extractMime ⟨pre⟩, stripWs ⟨post⟩)) := by
  unfold parseDataUrl
  rw [string_mk_data, findIdx_append_comma pre post hp 0]
  simp only [Nat.zero_add]
  rw [List.take_left]
  have hdrop : (pre ++ ',' :: post).drop (pre.length + 1) = post := by
    rw [← List.drop_drop, List.drop_left]
    rfl
  rw [hdrop]

lemma parseKeys_empty : parseKeys "" = [] := by decide

lemma string_ne_empty_of_parseKeys {s : String} (h : parseKeys s ≠ []) : s ≠ "" := by
  intro he
  subst he
  exact h parseKeys_empty

lemma getNextClient_fresh (st : RotState) (s : String)
    (hlast : st.lastApiKeyString ≠ s) (hne : parseKeys s ≠ []) :
    getNextClient st s =
      (⟨1 % (parseKeys s).length, s, parseKeys s⟩, some ((parseKeys s).getD 0 "")) := by
  have hs : ¬ (s = "") := string_ne_empty_of_parseKeys hne
  unfold getNextClient reparse
  rw [if_neg hs, if_pos (Ne.symm hlast)]
  simp only []
  rw [if_neg hne]

lemma getNextClient_same (i : Nat) (s : String) (keys : List String)
    (hs : s ≠ "") (hne : keys ≠ []) :
    getNextClient ⟨i, s, keys⟩ s =
      (⟨(i + 1) % keys.length, s, keys⟩, some (keys.getD i "")) := by
  unfold getNextClient reparse
  rw [if_neg hs]
  simp only [ne_eq, not_true_eq_false, if_neg, ite_false]
  rw [if_neg hne]

lemma rotIter_succ (st0 : RotState) (s : String)
    (hlast : st0.lastApiKeyString ≠ s) (hne : parseKeys s ≠ []) :
    ∀ n : Nat, rotIter st0 s (n + 1) = ⟨(n + 1) % (parseKeys s).length, s, parseKeys s⟩ := by
  have hs : s ≠ "" := string_ne_empty_of_parseKeys hne
  intro n
  induction n with
  | zero =>
    show (getNextClient (rotIter st0 s 0) s).1 = _
    rw [show rotIter st0 s 0 = st0 from rfl, getNextClient_fresh st0 s hlast hne]
  | succ m ih =>
    show (getNextClient (rotIter st0 s (m + 1)) s).1 = _
    rw [ih, getNextClient_same _ s _ hs hne]
    exact congrArg (fun k => RotState.mk k s (parseKeys s)) (Nat.mod_add_mod (m + 1) _ 1)

/-! ### Claim theorems -/

/-- C6: the frame codec returns `none` when the input has no comma, or
when the payload after the first comma is empty once all whitespace is
stripped; otherwise it returns the mime type extracted from the
`data:<type>;` prefix (default `image/jpeg`) paired with the stripped
payload; with the claim's concrete examples. -/
theorem parseDataUrl_spec (url : String) :
    ((',' ∉ url.data) → parseDataUrl url = none)
    ∧ (∀ pre post : List Char, url.data = pre ++ ',' :: post → ',' ∉ pre →
        ((stripWs ⟨post⟩ = "" → parseDataUrl url = none)
          ∧ (stripWs ⟨post⟩ ≠ "" →
              parseDataUrl url = some (extractMime ⟨pre⟩, stripWs ⟨post⟩))))
    ∧ parseDataUrl "data:image/png;base64,iVBORw0==" = some ("image/png", "iVBORw0==")
    ∧ parseDataUrl "nocomma" = none
    ∧ parseDataUrl "data:image/png;base64,a b\nc" = some ("image/png", "abc")
    ∧ parseDataUrl "xyz,abc" = some ("image/jpeg", "abc") := by
  refine ⟨?_, ?_, by decide, by decide, by decide, by decide⟩
  · intro h
    unfold parseDataUrl
    have : url.data.findIdx? (fun c => c == ',') = none := by
      rw [List.findIdx?_eq_none_iff]
      intro x hx
      simp only [beq_eq_false_iff_ne, ne_eq]
      intro he
      exact h (he ▸ hx)
    rw [this]
  · intro pre post hdata hp
    have hu : url = ⟨pre ++ ',' :: post⟩ := by
      cases url with
      | mk d => exact congrArg String.mk hdata
    rw [hu, parseDataUrl_eq pre post hp]
    constructor
    · intro he; rw [if_pos he]
    · intro he; rw [if_neg he]

/-- Witness for `parseDataUrl_spec`: instantiation at concrete inputs,
discharging both hypothesis shapes. -/
theorem parseDataUrl_spec_witness :
    ((',' ∉ "nocomma".data) ∧ parseDataUrl "nocomma" = none)
    ∧ (("a, b\nc".data = ['a'] ++ ',' :: [' ', 'b', '\n', 'c'] ∧ ',' ∉ ['a']
          ∧ stripWs ⟨[' ', 'b', '\n', 'c']⟩ ≠ "")
        ∧ parseDataUrl "a, b\nc" = some (extractMime ⟨['a']⟩, stripWs ⟨[' ', 'b', '\n', 'c']⟩)) :=
  ⟨⟨by decide, (parseDataUrl_spec "nocomma").1 (by decide)⟩,
    ⟨⟨by decide, by decide, by decide⟩,
      ((parseDataUrl_spec "a, b\nc").2.1 ['a'] [' ', 'b', '\n', 'c']
          (by decide) (by decide)).2 (by decide)⟩⟩

/-- C1: starting fresh (the cached key string differs), the `(n+1)`-th
consecutive rotator call with a fixed config string returns token
`n mod k` of the parsed pool, so `k` consecutive calls return each token
exactly once in order and the `(k+1)`-th call repeats the first; and a
call with a different non-empty config string re-splits the pool, caches
the new string, and restarts rotation at index 0 (returning token 0 when
the new pool is non-empty), even mid-cycle. -/
theorem rotator_round_robin :
    (∀ (s : String) (st0 : RotState) (n : Nat),
        st0.lastApiKeyString ≠ s → parseKeys s ≠ [] →
        nthKey st0 s n = some ((parseKeys s).getD (n % (parseKeys s).length) ""))
    ∧ (∀ (st : RotState) (s2 : String), s2 ≠ "" → s2 ≠ st.lastApiKeyString →
        (getNextClient st s2).1.parsedKeys = parseKeys s2
        ∧ (getNextClient st s2).1.lastApiKeyString = s2
        ∧ (parseKeys s2 = [] →
            (getNextClient st s2).2 = none
            ∧ (getNextClient st s2).1.currentKeyIndex = 0)
        ∧ (parseKeys s2 ≠ [] →
            (getNextClient st s2).2 = some ((parseKeys s2).getD 0 "")
            ∧ (getNextClient st s2).1.currentKeyIndex = 1 % (parseKeys s2).length)) := by
  constructor
  · intro s st0 n hlast hne
    have hs : s ≠ "" := string_ne_empty_of_parseKeys hne
    cases n with
    | zero =>
      show (getNextClient (rotIter st0 s 0) s).2 = _
      rw [show rotIter st0 s 0 = st0 from rfl, getNextClient_fresh st0 s hlast hne]
      rw [Nat.zero_mod]
    | succ m =>
      show (getNextClient (rotIter st0 s (m + 1)) s).2 = _
      rw [rotIter_succ st0 s hlast hne m, getNextClient_same _ s _ hs hne]
  · intro st s2 hs2 hlast
    by_cases hne : parseKeys s2 = []
    · have : getNextClient st s2 = (⟨0, s2, parseKeys s2⟩, none) := by
        unfold getNextClient reparse
        rw [if_neg hs2, if_pos hlast]
        simp only []
        rw [if_pos hne]
      rw [this]
      exact ⟨rfl, rfl, fun _ => ⟨rfl, rfl⟩, fun h => absurd hne h⟩
    · rw [getNextClient_fresh st s2 (Ne.symm hlast) hne]
      exact ⟨rfl, rfl, fun h => absurd h hne, fun _ => ⟨rfl, rfl⟩⟩

/-- Witness for `rotator_round_robin`: pool `"a, b"` of two keys — the
third call returns `"b"`, the fourth wraps to `"a"`; switching a
mid-cycle state to `"c, d"` returns that pool's first token. -/
theorem rotator_round_robin_witness :
    (initRot.lastApiKeyString ≠ "a, b" ∧ parseKeys "a, b" ≠ []
      ∧ nthKey initRot "a, b" 2 = some "a" ∧ nthKey initRot "a, b" 3 = some "b")
    ∧ (("c, d" : String) ≠ "" ∧ ("c, d" : String) ≠ (RotState.mk 1 "a,b" ["a", "b"]).lastApiKeyString
      ∧ (getNextClient ⟨1, "a,b", ["a", "b"]⟩ "c, d").2 = some ((parseKeys "c, d").getD 0 "")
      ∧ (getNextClient ⟨1, "a,b", ["a", "b"]⟩ "c, d").1.currentKeyIndex = 1 % (parseKeys "c, d").length) := by
  refine ⟨⟨by decide, by decide, ?_, ?_⟩, ⟨by decide, by decide, ?_, ?_⟩⟩
  · exact (rotator_round_robin.1 "a, b" initRot 2 (by decide) (by decide)).trans (by decide)
  · exact (rotator_round_robin.1 "a, b" initRot 3 (by decide) (by decide)).trans (by decide)
  · exact ((rotator_round_robin.2 ⟨1, "a,b", ["a", "b"]⟩ "c, d" (by decide) (by decide)).2.2.2
      (by decide)).1
  · exact ((rotator_round_robin.2 ⟨1, "a,b", ["a", "b"]⟩ "c, d" (by decide) (by decide)).2.2.2
      (by decide)).2

lemma checkFrame_snd (st : RotState) (key : String) (tgts : List String)
    (scr : String) (remote : RemoteOutcome) :
    (checkFrameForTarget st key tgts scr remote).2
      = detectOutcome (getNextClient st key).2.isSome tgts scr remote := rfl

lemma checkFrame_fst (st : RotState) (key : String) (tgts : List String)
    (scr : String) (remote : RemoteOutcome) :
    (checkFrameForTarget st key tgts scr remote).1 = (getNextClient st key).1 := rfl

lemma detectOutcome_spec (ok : Bool) (tgts : List String) (scr : String)
    (remote : RemoteOutcome) :
    ((remote = RemoteOutcome.fail ∨ remote = RemoteOutcome.emptyBody
        ∨ remote = RemoteOutcome.body none) →
      (detectOutcome ok tgts scr remote).1 = zeroResult)
    ∧ ((tgts.filterMap parseDataUrl = [] ∨ parseDataUrl scr = none) →
        detectOutcome ok tgts scr remote = (zeroResult, false))
    ∧ ((detectOutcome ok tgts scr remote).2 = false →
        (detectOutcome ok tgts scr remote).1 = zeroResult) := by
  unfold detectOutcome
  by_cases hc : ok = false
  · rw [if_pos hc]
    exact ⟨fun _ => rfl, fun _ => rfl, fun _ => rfl⟩
  · rw [if_neg hc]
    by_cases hv : tgts.filterMap parseDataUrl = [] ∨ parseDataUrl scr = none
    · rw [if_pos hv]
      exact ⟨fun _ => rfl, fun _ => rfl, fun _ => rfl⟩
    · rw [if_neg hv]
      refine ⟨?_, fun h => absurd h hv, ?_⟩
      · rintro (rfl | rfl | rfl) <;> rfl
      · cases remote with
        | fail => exact fun _ => rfl
        | emptyBody => exact fun _ => rfl
        | body p => cases p with
          | none => exact fun _ => rfl
          | some j => intro h; exact absurd h (by simp)

/-- C2: the detection client never surfaces a failure: the embedding is
total (every throwing path of the source is caught and mapped to
`zeroResult`), every remote failure (rejection, empty body, malformed
JSON) yields exactly `{detected: false, confidence: 0}`, and when no
target decodes or the screen frame fails to decode the zero result is
returned without invoking the remote service; likewise whenever the
remote service was not invoked the result is the zero result. -/
theorem detect_failure_safe (st : RotState) (key : String)
    (tgts : List String) (scr : String) (remote : RemoteOutcome) :
    ((remote = RemoteOutcome.fail ∨ remote = RemoteOutcome.emptyBody
        ∨ remote = RemoteOutcome.body none) →
      (checkFrameForTarget st key tgts scr remote).2.1 = zeroResult)
    ∧ ((tgts.filterMap parseDataUrl = [] ∨ parseDataUrl scr = none) →
        (checkFrameForTarget st key tgts scr remote).2.1 = zeroResult
        ∧ (checkFrameForTarget st key tgts scr remote).2.2 = false)
    ∧ ((checkFrameForTarget st key tgts scr remote).2.2 = false →
        (checkFrameForTarget st key tgts scr remote).2.1 = zeroResult) := by
  have hs := detectOutcome_spec (getNextClient st key).2.isSome tgts scr remote
  rw [checkFrame_snd]
  exact ⟨hs.1, fun h => by rw [hs.2.1 h]; exact ⟨rfl, rfl⟩, hs.2.2⟩

/-- Witness for `detect_failure_safe`: a target list whose single entry
has no comma decodes to nothing, so the call returns the zero result
without invoking the service. -/
theorem detect_failure_safe_witness :
    (["bad"].filterMap parseDataUrl = [] ∨ parseDataUrl "bad" = none)
    ∧ ((checkFrameForTarget initRot "k" ["bad"] "bad" RemoteOutcome.fail).2.1 = zeroResult
      ∧ (checkFrameForTarget initRot "k" ["bad"] "bad" RemoteOutcome.fail).2.2 = false) :=
  ⟨Or.inl (by decide),
    (detect_failure_safe initRot "k" ["bad"] "bad" RemoteOutcome.fail).2.1 (Or.inl (by decide))⟩

/-- C10: whenever the config string is non-empty and the (re-)parsed pool
is non-empty, a `checkFrameForTarget` call advances the rotation index by
one modulo the pool size — the credential is consumed by `getNextClient`
before any image validation, so this holds in particular for calls that
return the zero result because every target (or the screen frame) failed
to decode. -/
theorem credential_consumed_before_validation (st : RotState) (key : String)
    (tgts : List String) (scr : String) (remote : RemoteOutcome) :
    key ≠ "" → (reparse st key).parsedKeys ≠ [] →
    (checkFrameForTarget st key tgts scr remote).1.currentKeyIndex
        = ((reparse st key).currentKeyIndex + 1) % (reparse st key).parsedKeys.length
    ∧ (checkFrameForTarget st key tgts scr remote).1.parsedKeys = (reparse st key).parsedKeys
    ∧ ((tgts.filterMap parseDataUrl = [] ∨ parseDataUrl scr = none) →
        (checkFrameForTarget st key tgts scr remote).2.1 = zeroResult) := by
  intro hk hp
  have hg : getNextClient st key =
      ({ reparse st key with
          currentKeyIndex :=
            ((reparse st key).currentKeyIndex + 1) % (reparse st key).parsedKeys.length },
        some ((reparse st key).parsedKeys.getD (reparse st key).currentKeyIndex "")) := by
    unfold getNextClient
    rw [if_neg hk, if_neg hp]
  refine ⟨by rw [checkFrame_fst, hg], by rw [checkFrame_fst, hg], ?_⟩
  intro hv
  rw [checkFrame_snd,
    (detectOutcome_spec (getNextClient st key).2.isSome tgts scr remote).2.1 hv]

/-- Witness for `credential_consumed_before_validation`: a two-key pool
with undecodable images — the call returns the zero result yet the index
moves from 0 to 1. -/
theorem credential_consumed_witness :
    (("a,b" : String) ≠ "" ∧ (reparse initRot "a,b").parsedKeys ≠ [])
    ∧ ((checkFrameForTarget initRot "a,b" ["bad"] "bad" RemoteOutcome.fail).1.currentKeyIndex
          = ((reparse initRot "a,b").currentKeyIndex + 1) % (reparse initRot "a,b").parsedKeys.length
      ∧ (checkFrameForTarget initRot "a,b" ["bad"] "bad" RemoteOutcome.fail).2.1 = zeroResult) :=
  ⟨⟨by decide, by decide⟩,
    ⟨(credential_consumed_before_validation initRot "a,b" ["bad"] "bad" RemoteOutcome.fail
        (by decide) (by decide)).1,
      (credential_consumed_before_validation initRot "a,b" ["bad"] "bad" RemoteOutcome.fail
        (by decide) (by decide)).2.2 (Or.inl (by decide))⟩⟩

lemma interpretResponse_detected (j : JValue) :
    (interpretResponse j).detected = detVal (getField j "detected") := by
  cases j <;> rfl

lemma interpretResponse_confidence (j : JValue) :
    (interpretResponse j).confidence = confVal (getField j "confidence") := by
  cases j <;> rfl

lemma interpretResponse_box (j : JValue) :
    (interpretResponse j).boundingBox = extractBox (getField j "box_2d") := by
  cases j <;> rfl

lemma extractBox_isSome_iff (v : Option JValue) :
    (extractBox v).isSome = true
      ↔ ∃ a b c d, v = some (JValue.jarr [a, b, c, d])
          ∧ jsGE a 0 = true ∧ jsLE a 1 = true ∧ jsGE b 0 = true ∧ jsLE b 1 = true := by
  unfold extractBox
  split
  · rename_i a b c d
    by_cases h : (jsGE a 0 && jsLE a 1 && jsGE b 0 && jsLE b 1) = true
    · rw [if_pos h]
      simp only [Bool.and_eq_true] at h
      simp only [Option.isSome_some, true_iff]
      exact ⟨a, b, c, d, rfl, h.1.1.1, h.1.1.2, h.1.2, h.2⟩
    · rw [if_neg h]
      simp only [Option.isSome_none, Bool.false_eq_true, false_iff]
      rintro ⟨x, y, z, w, he, h1, h2, h3, h4⟩
      cases he
      exact h (by simp [h1, h2, h3, h4])
  · rename_i hno
    simp only [Option.isSome_none, Bool.false_eq_true, false_iff]
    rintro ⟨x, y, z, w, he, -, -, -, -⟩
    exact hno x y z w he

lemma extractBox_accepts (a b c d : JValue)
    (h1 : jsGE a 0 = true) (h2 : jsLE a 1 = true)
    (h3 : jsGE b 0 = true) (h4 : jsLE b 1 = true) :
    extractBox (some (JValue.jarr [a, b, c, d]))
      = some { ymin := a, xmin := b, ymax := c, xmax := d } := by
  have he : extractBox (some (JValue.jarr [a, b, c, d]))
      = if (jsGE a 0 && jsLE a 1 && jsGE b 0 && jsLE b 1) = true
        then some { ymin := a, xmin := b, ymax := c, xmax := d } else none := rfl
  rw [he, if_pos (by simp [h1, h2, h3, h4])]

/-- C3 (amended): the parsed response carries a bounding box exactly when
`box_2d` is an array of exactly 4 elements whose first two entries pass
the JS range comparisons `>= 0` and `<= 1` (which coerce non-numbers);
an accepted box copies the four entries unchecked (`ymax`/`xmax`
unvalidated), and `detected`/`confidence` are produced independently of
the box validation. -/
theorem box_validation (j : JValue) :
    ((interpretResponse j).boundingBox.isSome = true
      ↔ ∃ a b c d, getField j "box_2d" = some (JValue.jarr [a, b, c, d])
          ∧ jsGE a 0 = true ∧ jsLE a 1 = true ∧ jsGE b 0 = true ∧ jsLE b 1 = true)
    ∧ (∀ a b c d, getField j "box_2d" = some (JValue.jarr [a, b, c, d]) →
        jsGE a 0 = true → jsLE a 1 = true → jsGE b 0 = true → jsLE b 1 = true →
        (interpretResponse j).boundingBox
          = some { ymin := a, xmin := b, ymax := c, xmax := d })
    ∧ (interpretResponse j).detected = detVal (getField j "detected")
    ∧ (interpretResponse j).confidence = confVal (getField j "confidence") := by
  refine ⟨?_, ?_, interpretResponse_detected j, interpretResponse_confidence j⟩
  · rw [interpretResponse_box]
    exact extractBox_isSome_iff _
  · intro a b c d he h1 h2 h3 h4
    rw [interpretResponse_box, he, extractBox_accepts a b c d h1 h2 h3 h4]

/-- Witness for `box_validation`: the claim's accepted example
`box_2d = [0.1, 0.2, 0.5, 0.6]` produces exactly that box. -/
theorem box_validation_witness :
    (getField (JValue.jobj [("box_2d",
          JValue.jarr [JValue.jnum (mkRat 1 10), JValue.jnum (mkRat 1 5),
            JValue.jnum (mkRat 1 2), JValue.jnum (mkRat 3 5)])]) "box_2d"
        = some (JValue.jarr [JValue.jnum (mkRat 1 10), JValue.jnum (mkRat 1 5),
            JValue.jnum (mkRat 1 2), JValue.jnum (mkRat 3 5)])
      ∧ jsGE (JValue.jnum (mkRat 1 10)) 0 = true ∧ jsLE (JValue.jnum (mkRat 1 10)) 1 = true
      ∧ jsGE (JValue.jnum (mkRat 1 5)) 0 = true ∧ jsLE (JValue.jnum (mkRat 1 5)) 1 = true)
    ∧ (interpretResponse (JValue.jobj [("box_2d",
          JValue.jarr [JValue.jnum (mkRat 1 10), JValue.jnum (mkRat 1 5),
            JValue.jnum (mkRat 1 2), JValue.jnum (mkRat 3 5)])])).boundingBox
        = some ⟨JValue.jnum (mkRat 1 10), JValue.jnum (mkRat 1 5),
            JValue.jnum (mkRat 1 2), JValue.jnum (mkRat 3 5)⟩ :=
  ⟨⟨by rfl, by decide, by decide, by decide, by decide⟩,
    (box_validation _).2.1 _ _ _ _ (by rfl) (by decide) (by decide) (by decide) (by decide)⟩

/-- Counterexample to C3 as stated: a response whose `box_2d` is
`[null, 0.2, 0.5, 0.6]` — not an array of 4 numbers — still yields a
bounding box (JS coerces `null` to 0, so `null >= 0 && null <= 1`
passes), with `detected`/`confidence` produced as usual. -/
theorem box_accepts_null_entry :
    (checkFrameForTarget initRot "k" ["data:image/png;base64,AAAA"]
        "data:image/jpeg;base64,BBBB"
        (RemoteOutcome.body (some (JValue.jobj
          [("detected", JValue.jbool true), ("confidence", JValue.jnum (mkRat 9 10)),
            ("box_2d", JValue.jarr [JValue.jnull, JValue.jnum (mkRat 1 5),
              JValue.jnum (mkRat 1 2), JValue.jnum (mkRat 3 5)])])))).2.1.boundingBox
      = some ⟨JValue.jnull, JValue.jnum (mkRat 1 5),
          JValue.jnum (mkRat 1 2), JValue.jnum (mkRat 3 5)⟩
    ∧ (checkFrameForTarget initRot "k" ["data:image/png;base64,AAAA"]
        "data:image/jpeg;base64,BBBB"
        (RemoteOutcome.body (some (JValue.jobj
          [("detected", JValue.jbool true), ("confidence", JValue.jnum (mkRat 9 10)),
            ("box_2d", JValue.jarr [JValue.jnull, JValue.jnum (mkRat 1 5),
              JValue.jnum (mkRat 1 2), JValue.jnum (mkRat 3 5)])])))).2.1.detected = true
    ∧ (checkFrameForTarget initRot "k" ["data:image/png;base64,AAAA"]
        "data:image/jpeg;base64,BBBB"
        (RemoteOutcome.body (some (JValue.jobj
          [("detected", JValue.jbool true), ("confidence", JValue.jnum (mkRat 9 10)),
            ("box_2d", JValue.jarr [JValue.jnull, JValue.jnum (mkRat 1 5),
              JValue.jnum (mkRat 1 2), JValue.jnum (mkRat 3 5)])])))).2.1.confidence
      = mkRat 9 10 :=
  ⟨by rfl, by rfl, by decide⟩

/-- C9 (amended): the produced confidence equals the JS numeric coercion
of the response's `confidence` field with falsy/NaN coerced to 0, and is
*not* clamped: it lies in `[0, 1]` exactly on the assumption that the
coerced response value does (which holds for every failure path, where
the confidence is 0). -/
theorem confidence_range_conditional (st : RotState) (key : String)
    (tgts : List String) (scr : String) (remote : RemoteOutcome) :
    (∀ j, remote = RemoteOutcome.body (some j) →
        0 ≤ confVal (getField j "confidence") ∧ confVal (getField j "confidence") ≤ 1) →
    0 ≤ (checkFrameForTarget st key tgts scr remote).2.1.confidence
    ∧ (checkFrameForTarget st key tgts scr remote).2.1.confidence ≤ 1 := by
  intro h
  rw [checkFrame_snd]
  unfold detectOutcome
  by_cases hc : (getNextClient st key).2.isSome = false
  · rw [if_pos hc]; exact ⟨le_refl 0, zero_le_one⟩
  · rw [if_neg hc]
    by_cases hv : tgts.filterMap parseDataUrl = [] ∨ parseDataUrl scr = none
    · rw [if_pos hv]; exact ⟨le_refl 0, zero_le_one⟩
    · rw [if_neg hv]
      cases remote with
      | fail => exact ⟨le_refl 0, zero_le_one⟩
      | emptyBody => exact ⟨le_refl 0, zero_le_one⟩
      | body p => cases p with
        | none => exact ⟨le_refl 0, zero_le_one⟩
        | some j =>
          have := h j rfl
          show 0 ≤ (interpretResponse j).confidence ∧ (interpretResponse j).confidence ≤ 1
          rw [interpretResponse_confidence]
          exact this

/-- Witness for `confidence_range_conditional`: a response with
confidence 0.5 — the hypothesis holds and the result is in range. -/
theorem confidence_range_witness :
    (∀ j, RemoteOutcome.body (some (JValue.jobj [("confidence", JValue.jnum (mkRat 1 2))]))
          = RemoteOutcome.body (some j) →
        0 ≤ confVal (getField j "confidence") ∧ confVal (getField j "confidence") ≤ 1)
    ∧ (0 ≤ (checkFrameForTarget initRot "k" ["data:image/png;base64,AAAA"]
          "data:image/jpeg;base64,BBBB"
          (RemoteOutcome.body (some (JValue.jobj
            [("confidence", JValue.jnum (mkRat 1 2))])))).2.1.confidence
      ∧ (checkFrameForTarget initRot "k" ["data:image/png;base64,AAAA"]
          "data:image/jpeg;base64,BBBB"
          (RemoteOutcome.body (some (JValue.jobj
            [("confidence", JValue.jnum (mkRat 1 2))])))).2.1.confidence ≤ 1) := by
  have hh : ∀ j, RemoteOutcome.body (some (JValue.jobj [("confidence", JValue.jnum (mkRat 1 2))]))
        = RemoteOutcome.body (some j) →
      0 ≤ confVal (getField j "confidence") ∧ confVal (getField j "confidence") ≤ 1 := by
    intro j h
    cases h
    exact ⟨by decide, by decide⟩
  exact ⟨hh, confidence_range_conditional initRot "k" ["data:image/png;base64,AAAA"]
    "data:image/jpeg;base64,BBBB" _ hh⟩

/-- Counterexample to C9 as stated: a response with `confidence: 2` is
passed through unclamped, so the produced confidence lies outside
`[0, 1]`. -/
theorem confidence_not_clamped :
    (checkFrameForTarget initRot "k" ["data:image/png;base64,AAAA"]
        "data:image/jpeg;base64,BBBB"
        (RemoteOutcome.body (some (JValue.jobj
          [("detected", JValue.jbool true),
            ("confidence", JValue.jnum 2)])))).2.1.confidence = 2
    ∧ ¬ ((checkFrameForTarget initRot "k" ["data:image/png;base64,AAAA"]
        "data:image/jpeg;base64,BBBB"
        (RemoteOutcome.body (some (JValue.jobj
          [("detected", JValue.jbool true),
            ("confidence", JValue.jnum 2)])))).2.1.confidence ≤ 1) :=
  ⟨by decide, by decide⟩

lemma stopMonitoringFn_status (s : MState) :
    (stopMonitoringFn s).status = AppStatus.IDLE := by
  unfold stopMonitoringFn mAddLog
  by_cases hs : s.stream <;> simp [hs]

lemma stopMonitoringFn_busy (s : MState) : (stopMonitoringFn s).busy = s.busy := by
  unfold stopMonitoringFn mAddLog
  by_cases hs : s.stream <;> simp [hs]

lemma stopMonitoringFn_inFlight (s : MState) :
    (stopMonitoringFn s).inFlight = s.inFlight := by
  unfold stopMonitoringFn mAddLog
  by_cases hs : s.stream <;> simp [hs]

lemma tickEndFn_busy (s : MState) (o : Except Unit DetectionResult) :
    (tickEndFn s o).1.busy = false := by
  unfold tickEndFn mAddLog
  cases o with
  | ok r => by_cases hc : r.detected = true ∧ s.confidenceThreshold ≤ r.confidence <;>
      simp [hc]
  | error e => rfl

lemma tickEndFn_status (s : MState) (o : Except Unit DetectionResult) :
    (tickEndFn s o).1.status = s.status := by
  unfold tickEndFn mAddLog
  cases o with
  | ok r => by_cases hc : r.detected = true ∧ s.confidenceThreshold ≤ r.confidence <;>
      simp [hc]
  | error e => rfl

lemma tickEndFn_inFlight (s : MState) (o : Except Unit DetectionResult) :
    (tickEndFn s o).1.inFlight = s.inFlight - 1 := by
  unfold tickEndFn mAddLog
  cases o with
  | ok r => by_cases hc : r.detected = true ∧ s.confidenceThreshold ≤ r.confidence <;>
      simp [hc]
  | error e => rfl

lemma completeTick_eq (s : MState) (o : Except Unit DetectionResult) :
    completeTick s o =
      if (tickStartFn s).2 then (tickEndFn (tickStartFn s).1 o).1
      else (tickStartFn s).1 := rfl

lemma stepEv_flight (s : MState) (e : Ev)
    (h : s.inFlight = if s.busy then 1 else 0) :
    (stepEv s e).inFlight = if (stepEv s e).busy then 1 else 0 := by
  cases e with
  | setApiKey k => simpa using h
  | setThreshold q => simpa using h
  | toggleSound => simpa using h
  | captureOk =>
    simp only [stepEv]
    by_cases hs : s.stream <;> simp [hs, mAddLog] <;> exact h
  | addTarget => simpa [stepEv, mAddLog] using h
  | removeTarget =>
    simp only [stepEv]
    by_cases ht : s.targets = 0 <;> simp [ht, mAddLog] <;> exact h
  | toggle =>
    show (toggleMonitoringFn s).inFlight = if (toggleMonitoringFn s).busy then 1 else 0
    unfold toggleMonitoringFn
    split
    · split
      · simpa [mAddLog] using h
      · split
        · simpa [mAddLog] using h
        · split
          · simpa [mAddLog] using h
          · simpa [mAddLog] using h
    · simpa [mAddLog] using h
  | stopBtn =>
    show (stopMonitoringFn s).inFlight = if (stopMonitoringFn s).busy then 1 else 0
    rw [stopMonitoringFn_inFlight, stopMonitoringFn_busy]
    exact h
  | streamEnded =>
    simp only [stepEv]
    by_cases hs : s.stream <;> simp [hs, mAddLog, stopMonitoringFn_inFlight,
      stopMonitoringFn_busy] <;> exact h
  | setVideoReady b => simpa using h
  | tickBegin =>
    show (tickStartFn s).1.inFlight = if (tickStartFn s).1.busy then 1 else 0
    unfold tickStartFn
    split
    · exact h
    · split
      · rw [stopMonitoringFn_inFlight, stopMonitoringFn_busy]
        simpa [mAddLog] using h
      · split
        · exact h
        · rename_i hguard _ _
          simp only [not_or] at hguard
          have hb : s.busy = false := by
            revert hguard; cases s.busy <;> simp
          have h0 : s.inFlight = 0 := by rw [hb] at h; simpa using h
          simp [mAddLog, h0]
  | tickFinish o =>
    simp only [stepEv]
    by_cases hz : s.inFlight = 0
    · simp only [if_pos hz]
      exact h
    · simp only [if_neg hz]
      rw [tickEndFn_inFlight, tickEndFn_busy]
      have hb : s.busy = true := by
        by_contra hb
        simp only [Bool.not_eq_true] at hb
        rw [hb] at h
        simp at h
        exact hz h
      rw [hb] at h
      simp [h]

lemma flight_inv (s : MState) (hr : Reachable s) :
    s.inFlight = if s.busy then 1 else 0 := by
  induction hr with
  | init => rfl
  | step e hr ih => exact stepEv_flight _ e ih

lemma tickStartFn_char (s : MState) :
    ((s.stream = false ∨ s.targets = 0 ∨ s.busy = true) → tickStartFn s = (s, false))
    ∧ (¬ (s.stream = false ∨ s.targets = 0 ∨ s.busy = true) → s.apiKey = "" →
        tickStartFn s =
          (stopMonitoringFn
            (mAddLog s "API Key missing. Check settings." LogType.error none), false))
    ∧ (¬ (s.stream = false ∨ s.targets = 0 ∨ s.busy = true) → ¬ s.apiKey = "" →
        s.videoReady = false → tickStartFn s = (s, false))
    ∧ (¬ (s.stream = false ∨ s.targets = 0 ∨ s.busy = true) → ¬ s.apiKey = "" →
        ¬ s.videoReady = false → tickStartFn s =
          ({ mAddLog s "Analyzing frame..." LogType.info none with
              busy := true, inFlight := s.inFlight + 1 }, true)) := by
  refine ⟨fun hg => ?_, fun hg ha => ?_, fun hg ha hv => ?_, fun hg ha hv => ?_⟩ <;>
    unfold tickStartFn
  · rw [if_pos hg]
  · rw [if_neg hg, if_pos ha]
  · rw [if_neg hg, if_neg ha, if_pos hv]
  · rw [if_neg hg, if_neg ha, if_neg hv]

/-- C5: while a detection call is in flight (busy) a tick is a no-op —
dropped, not queued; a tick with an undecoded or paused/ended video
issues no detection call (and, unless it is the empty-credential stop
path, changes nothing); at most one detection call is ever outstanding
in any reachable state; and a tick that starts with the busy flag clear
leaves it clear after it completes (success, caught error, or early
return), while a busy-dropped tick leaves the state — including the
flag — untouched. -/
theorem busy_mutual_exclusion :
    (∀ s : MState, s.busy = true →
      stepEv s Ev.tickBegin = s ∧ (tickStartFn s).2 = false)
    ∧ (∀ s : MState, s.videoReady = false → (tickStartFn s).2 = false)
    ∧ (∀ s : MState, s.videoReady = false → s.apiKey ≠ "" → stepEv s Ev.tickBegin = s)
    ∧ (∀ s : MState, Reachable s → s.inFlight ≤ 1)
    ∧ (∀ (s : MState) (o : Except Unit DetectionResult),
        s.busy = false → (completeTick s o).busy = false)
    ∧ (∀ (s : MState) (o : Except Unit DetectionResult),
        s.busy = true → completeTick s o = s) := by
  have hdrop : ∀ s : MState, s.busy = true → tickStartFn s = (s, false) := by
    intro s hb
    exact (tickStartFn_char s).1 (Or.inr (Or.inr hb))
  refine ⟨?_, ?_, ?_, ?_, ?_, ?_⟩
  · intro s hb
    exact ⟨congrArg Prod.fst (hdrop s hb), congrArg Prod.snd (hdrop s hb)⟩
  · intro s hv
    by_cases hg : s.stream = false ∨ s.targets = 0 ∨ s.busy = true
    · rw [(tickStartFn_char s).1 hg]
    · by_cases ha : s.apiKey = ""
      · rw [(tickStartFn_char s).2.1 hg ha]
      · rw [(tickStartFn_char s).2.2.1 hg ha hv]
  · intro s hv ha
    show (tickStartFn s).1 = s
    by_cases hg : s.stream = false ∨ s.targets = 0 ∨ s.busy = true
    · rw [(tickStartFn_char s).1 hg]
    · rw [(tickStartFn_char s).2.2.1 hg ha hv]
  · intro s hr
    rw [flight_inv s hr]
    by_cases hb : s.busy <;> simp [hb]
  · intro s o hb
    rw [completeTick_eq]
    by_cases hc : (tickStartFn s).2 = true
    · rw [if_pos hc, tickEndFn_busy]
    · rw [if_neg hc]
      show (tickStartFn s).1.busy = false
      by_cases hg : s.stream = false ∨ s.targets = 0 ∨ s.busy = true
      · rw [(tickStartFn_char s).1 hg]
        exact hb
      · by_cases ha : s.apiKey = ""
        · rw [(tickStartFn_char s).2.1 hg ha, stopMonitoringFn_busy]
          exact hb
        · by_cases hv : s.videoReady = false
          · rw [(tickStartFn_char s).2.2.1 hg ha hv]
            exact hb
          · exact absurd (by rw [(tickStartFn_char s).2.2.2 hg ha hv]) hc
  · intro s o hb
    rw [completeTick_eq, hdrop s hb]
    rfl

/-- Witness for `busy_mutual_exclusion`: a busy state drops the tick
unchanged; the initial state is reachable with nothing in flight, and a
clear busy flag stays clear through a completed (error) tick. -/
theorem busy_mutual_exclusion_witness :
    (({ initState with busy := true } : MState).busy = true
      ∧ stepEv { initState with busy := true } Ev.tickBegin = { initState with busy := true })
    ∧ initState.inFlight ≤ 1
    ∧ (initState.busy = false
      ∧ (completeTick initState (Except.error ())).busy = false) :=
  ⟨⟨rfl, (busy_mutual_exclusion.1 { initState with busy := true } rfl).1⟩,
    busy_mutual_exclusion.2.2.2.1 initState Reachable.init,
    ⟨rfl, busy_mutual_exclusion.2.2.2.2.1 initState (Except.error ()) rfl⟩⟩

/-- C4 (amended): no step of the detection path changes the monitor
status — with the single exception that a tick which passes the
stream/target/busy guard but finds the credential config empty stops
monitoring (status becomes `IDLE`); applying a detection result never
changes the status. -/
theorem detection_path_keeps_status (s : MState) (o : Except Unit DetectionResult) :
    ((stepEv s Ev.tickBegin).status = s.status
      ∨ (s.apiKey = "" ∧ (stepEv s Ev.tickBegin).status = AppStatus.IDLE))
    ∧ (stepEv s (Ev.tickFinish o)).status = s.status := by
  constructor
  · show ((tickStartFn s).1.status = s.status
      ∨ (s.apiKey = "" ∧ (tickStartFn s).1.status = AppStatus.IDLE))
    by_cases hg : s.stream = false ∨ s.targets = 0 ∨ s.busy = true
    · rw [(tickStartFn_char s).1 hg]
      exact Or.inl rfl
    · by_cases ha : s.apiKey = ""
      · rw [(tickStartFn_char s).2.1 hg ha]
        exact Or.inr ⟨ha, stopMonitoringFn_status _⟩
      · by_cases hv : s.videoReady = false
        · rw [(tickStartFn_char s).2.2.1 hg ha hv]
          exact Or.inl rfl
        · rw [(tickStartFn_char s).2.2.2 hg ha hv]
          exact Or.inl (by simp [mAddLog])
  · show (if s.inFlight = 0 then s else (tickEndFn s o).1).status = s.status
    split
    · rfl
    · exact tickEndFn_status s o

/-- Counterexample to C4 as stated: from the reachable state obtained by
configuring a key, starting capture, adding a target, entering
`MONITORING`, and then clearing the key, the next periodic tick — a
detection-path step, not a user stop/pause and not a stream loss —
transitions the monitor out of `MONITORING` to `IDLE`. -/
theorem tick_can_exit_monitoring :
    (runEvents initState
        [Ev.setApiKey "k", Ev.captureOk, Ev.addTarget, Ev.toggle, Ev.setApiKey ""]).status
      = AppStatus.MONITORING
    ∧ (stepEv (runEvents initState
        [Ev.setApiKey "k", Ev.captureOk, Ev.addTarget, Ev.toggle, Ev.setApiKey ""])
        Ev.tickBegin).status = AppStatus.IDLE :=
  ⟨by decide, by decide⟩

/-- C7 (amended): from `IDLE` or `PAUSED`, `toggleMonitoring` enters
`MONITORING` exactly when the credential config is non-empty, a capture
stream is active and at least one target exists; each failing
precondition rejects the transition by only appending a log entry — an
*error*-level entry for a missing credential, warnings for a missing
stream or missing targets — leaving the status (and everything else)
unchanged. -/
theorem toggle_preconditions (s : MState)
    (h : s.status = AppStatus.IDLE ∨ s.status = AppStatus.PAUSED) :
    ((toggleMonitoringFn s).status = AppStatus.MONITORING
        ↔ (s.apiKey ≠ "" ∧ s.stream = true ∧ 0 < s.targets))
    ∧ (s.apiKey = "" →
        toggleMonitoringFn s = mAddLog s "Gemini API Key is required" LogType.error none)
    ∧ (s.apiKey ≠ "" → s.stream = false →
        toggleMonitoringFn s = mAddLog s "Start screen capture first" LogType.warning none)
    ∧ (s.apiKey ≠ "" → s.stream = true → s.targets = 0 →
        toggleMonitoringFn s = mAddLog s "Upload a target image first" LogType.warning none)
    ∧ (¬ (s.apiKey ≠ "" ∧ s.stream = true ∧ 0 < s.targets) →
        (toggleMonitoringFn s).status = s.status) := by
  have hne : s.status ≠ AppStatus.MONITORING := by
    rcases h with h | h <;> rw [h] <;> intro hc <;> cases hc
  unfold toggleMonitoringFn
  rw [if_pos h]
  by_cases ha : s.apiKey = ""
  · rw [if_pos ha]
    refine ⟨?_, fun _ => rfl, fun hn => absurd ha hn, fun hn => absurd ha hn,
      fun _ => by simp [mAddLog]⟩
    constructor
    · intro hm
      exact absurd hm (by simpa [mAddLog] using hne)
    · rintro ⟨hn, -, -⟩
      exact absurd ha hn
  · rw [if_neg ha]
    by_cases hs : s.stream = false
    · rw [if_pos hs]
      refine ⟨?_, fun he => absurd he ha, fun _ _ => rfl,
        fun _ ht _ => absurd (ht ▸ hs) (by simp), fun _ => by simp [mAddLog]⟩
      constructor
      · intro hm
        exact absurd hm (by simpa [mAddLog] using hne)
      · rintro ⟨-, ht, -⟩
        exact absurd (ht ▸ hs) (by simp)
    · rw [if_neg hs]
      have hs2 : s.stream = true := by
        revert hs; cases s.stream <;> simp
      by_cases ht : s.targets = 0
      · rw [if_pos ht]
        refine ⟨?_, fun he => absurd he ha, fun _ hf => absurd (hf ▸ hs2) (by simp),
          fun _ _ _ => rfl, fun _ => by simp [mAddLog]⟩
        constructor
        · intro hm
          exact absurd hm (by simpa [mAddLog] using hne)
        · rintro ⟨-, -, hp⟩
          omega
      · rw [if_neg ht]
        refine ⟨?_, fun he => absurd he ha, fun _ hf => absurd (hf ▸ hs2) (by simp),
          fun _ _ h0 => absurd h0 ht,
          fun hn => absurd ⟨ha, hs2, Nat.pos_of_ne_zero ht⟩ hn⟩
        constructor
        · intro _
          exact ⟨ha, hs2, Nat.pos_of_ne_zero ht⟩
        · intro _
          simp [mAddLog]

/-- Witness for `toggle_preconditions`: the initial state is `IDLE` with
an empty key — the toggle only appends the error log entry. -/
theorem toggle_preconditions_witness :
    (initState.status = AppStatus.IDLE ∨ initState.status = AppStatus.PAUSED)
    ∧ toggleMonitoringFn initState
        = mAddLog initState "Gemini API Key is required" LogType.error none :=
  ⟨Or.inl rfl, (toggle_preconditions initState (Or.inl rfl)).2.1 rfl⟩

/-- Counterexample to C7 as stated: attempting to start monitoring with a
stream and a target but no credential leaves the status unchanged but
logs an *error*-level entry, not a warning. -/
theorem toggle_missing_key_logs_error :
    (stepEv (runEvents initState [Ev.captureOk, Ev.addTarget]) Ev.toggle).status
        = (runEvents initState [Ev.captureOk, Ev.addTarget]).status
    ∧ (stepEv (runEvents initState [Ev.captureOk, Ev.addTarget]) Ev.toggle).logs
        = (runEvents initState [Ev.captureOk, Ev.addTarget]).logs
            ++ [⟨"Gemini API Key is required", LogType.error, none⟩]
    ∧ LogType.error ≠ LogType.warning :=
  ⟨by decide, by decide, by decide⟩

/-- C8 (amended): applying a detection result fires the audible alert
exactly when the result is detected, its confidence reaches the
threshold *and* sound is enabled; the success log entry (with the
confidence) is appended exactly when detected and above threshold; the
overlay is set to the result's bounding box (which may be absent, in
which case nothing is drawn) on such a hit and cleared otherwise; the
status never changes. -/
theorem tick_result_effects (s : MState) (r : DetectionResult) :
    ((tickEndFn s (Except.ok r)).2
        = if r.detected = true ∧ s.confidenceThreshold ≤ r.confidence
          then s.soundEnabled else false)
    ∧ ((tickEndFn s (Except.ok r)).1.overlay
        = if r.detected = true ∧ s.confidenceThreshold ≤ r.confidence
          then r.boundingBox else none)
    ∧ ((tickEndFn s (Except.ok r)).1.logs
        = if r.detected = true ∧ s.confidenceThreshold ≤ r.confidence
          then pushLog s.logs ⟨"Target Detected!", LogType.success, some r.confidence⟩
          else s.logs)
    ∧ (tickEndFn s (Except.ok r)).1.status = s.status := by
  by_cases hc : r.detected = true ∧ s.confidenceThreshold ≤ r.confidence <;>
    simp [tickEndFn, mAddLog, hc]

/-- Counterexample to C8 as stated: with sound muted, a detected result
above threshold fires no audible alert; and with sound on, a hit whose
result carries no bounding box clears the overlay instead of drawing
one. -/
theorem alert_depends_on_sound_and_box :
    ((stepEv initState Ev.toggleSound).soundEnabled = false
      ∧ (stepEv initState Ev.toggleSound).confidenceThreshold ≤ mkRat 9 10
      ∧ (tickEndFn (stepEv initState Ev.toggleSound)
          (Except.ok ⟨true, mkRat 9 10, none⟩)).2 = false)
    ∧ ((tickEndFn initState (Except.ok ⟨true, mkRat 9 10, none⟩)).2 = true
      ∧ (tickEndFn initState (Except.ok ⟨true, mkRat 9 10, none⟩)).1.overlay = none) :=
  ⟨⟨by decide, by decide, by decide⟩, ⟨by decide, by rfl⟩⟩
